import Mathlib

/-!
Shallow embedding of the graceful HTTP-server lifecycle coordinator
(package server, file server.go) together with its caller-visible
behaviour, and proofs of the specification claims about it.

Modelling conventions:
- Go error interface values are modelled by the inductive type GoError.
  The Go comparison err == http.ErrServerClosed is an interface identity
  comparison; in the model two errors are identical exactly when they are
  equal as GoError values.  A freshly allocated error carries an
  allocation tag, so two distinct allocations with the same message text
  are distinct values, as in Go.  GoError.nil models the nil error.
- The nondeterministic environment of one server lifetime (what the bind
  returns, what the serve call eventually returns, how many OS interrupts
  are delivered, what the shutdown call returns) is a World record; each
  goroutine body is a deterministic function of the World.
- Channel traffic on the outcome channel (shutdown := make(chan error))
  is modelled by the lists of values each producer attempts to send,
  the channel capacity (0: the make call is unbuffered), and the number
  of receives the consumer performs (1: waitForServerToClose receives
  once and Start returns).
-/

namespace Server

/-- Go error interface values relevant to the lifecycle: the nil error,
the unique http.ErrServerClosed value, an error wrapping another error
(as fmt.Errorf with a percent-w verb would produce), and any other
distinctly allocated error carrying its message text. -/
inductive GoError where
  | nil
  | serverClosedSentinel
  | wrap (inner : GoError)
  | fresh (alloc : Nat) (msg : String)
deriving DecidableEq, Repr

/-- The message text of an error, as the Go method Error would return it.
http.ErrServerClosed is errors.New of the text below. -/
def errMessage : GoError → String
  | GoError.nil => ""
  | GoError.serverClosedSentinel => "http: Server closed"
  | GoError.wrap e => "wrapped: " ++ errMessage e
  | GoError.fresh _ m => m

/-- The Go function errors.Is, which unwraps: true when the target is
reachable through the wrapping chain.  The source never calls it; it is
here to show what the identity comparison in waitForServerToClose does
NOT do. -/
def errorsIs (e target : GoError) : Bool :=
  match e with
  | GoError.wrap inner => (GoError.wrap inner == target) || errorsIs inner target
  | x => x == target

/-- waitForServerToClose, given the single value received on the outcome
channel: if err == http.ErrServerClosed it returns nil, otherwise it
returns err itself. -/
def waitForServerToClose (received : GoError) : GoError :=
  if received = GoError.serverClosedSentinel then GoError.nil else received

/-- C1: the blocking wait returns no error exactly when the received
value is the deliberate-close sentinel http.ErrServerClosed; every other
received (non-nil) error value is returned verbatim as the failure
reason. -/
theorem c1_wait_returns_nil_iff_sentinel (e : GoError) (h : e ≠ GoError.nil) :
    (waitForServerToClose e = GoError.nil ↔ e = GoError.serverClosedSentinel) ∧
    (e ≠ GoError.serverClosedSentinel → waitForServerToClose e = e) := by
  unfold waitForServerToClose
  constructor
  · constructor
    · intro hw
      by_contra hne
      simp only [if_neg hne] at hw
      exact h hw
    · intro he
      simp [he]
  · intro hne
    simp [hne]

/-- Witness for C1 at a concrete serve-loop failure value. -/
theorem c1_wait_returns_nil_iff_sentinel_witness :
    (waitForServerToClose (GoError.fresh 0 "accept tcp: io fault") = GoError.nil ↔
      GoError.fresh 0 "accept tcp: io fault" = GoError.serverClosedSentinel) ∧
    (GoError.fresh 0 "accept tcp: io fault" ≠ GoError.serverClosedSentinel →
      waitForServerToClose (GoError.fresh 0 "accept tcp: io fault") =
        GoError.fresh 0 "accept tcp: io fault") :=
  c1_wait_returns_nil_iff_sentinel (GoError.fresh 0 "accept tcp: io fault") (by decide)

/-- C10: the deliberate-close sentinel is recognized by error identity
only.  The wait returns success exactly for the identical
http.ErrServerClosed value (or the nil error); an error that merely
wraps the sentinel (errors.Is would accept it) or a distinct allocation
with the same message text is returned as a failure. -/
theorem c10_sentinel_by_identity_only (e : GoError) (alloc : Nat) :
    (waitForServerToClose e = GoError.nil ↔
      (e = GoError.serverClosedSentinel ∨ e = GoError.nil)) ∧
    (errorsIs (GoError.wrap GoError.serverClosedSentinel)
        GoError.serverClosedSentinel = true ∧
      waitForServerToClose (GoError.wrap GoError.serverClosedSentinel) =
        GoError.wrap GoError.serverClosedSentinel) ∧
    (errMessage (GoError.fresh alloc "http: Server closed") =
        errMessage GoError.serverClosedSentinel ∧
      waitForServerToClose (GoError.fresh alloc "http: Server closed") =
        GoError.fresh alloc "http: Server closed") := by
  refine ⟨?_, ⟨by decide, by decide⟩, ⟨rfl, by simp [waitForServerToClose]⟩⟩
  unfold waitForServerToClose
  by_cases hs : e = GoError.serverClosedSentinel
  · simp [hs]
  · simp only [if_neg hs]
    constructor
    · intro hn
      exact Or.inr hn
    · intro hor
      rcases hor with h1 | h2
      · exact absurd h1 hs
      · exact h2

/-- One char list starts with another: the Go function strings.HasPrefix
on the underlying bytes (all addresses here are ASCII). -/
def listStartsWith : List Char → List Char → Bool
  | [], _ => true
  | _ :: _, [] => false
  | p :: ps, c :: cs => (p == c) && listStartsWith ps cs

/-- strings.HasPrefix from the Go standard library. -/
def goHasPfx (s pre : String) : Bool := listStartsWith pre.data s.data

/-- Dropping the first n characters of a string. -/
def strDrop (s : String) (n : Nat) : String := String.mk (s.data.drop n)

/-- strings.TrimPrefix from the Go standard library: the string without
the leading pre when present, otherwise unchanged. -/
def goTrimPfx (s pre : String) : String :=
  if goHasPfx s pre then strDrop s pre.data.length else s

/-- The nondeterministic environment of one server lifetime: what
net.Listen returns (nil on success), the value srv.Serve or srv.ServeTLS
eventually returns once reached, how many OS interrupts the process
receives during the lifetime, and what server.Shutdown returns when
invoked (nil on success). -/
structure World where
  bindErr : GoError
  serveResult : GoError
  interrupts : Nat
  shutdownResult : GoError
deriving DecidableEq, Repr

/-- The arguments of the one net.Listen call listenAndServe performs. -/
structure ListenCall where
  network : String
  addr : String
deriving DecidableEq, Repr

/-- Which serving mode the loop entered after a successful bind. -/
inductive ServeMode where
  | tls
  | plain
deriving DecidableEq, Repr

/-- The observable trace of one listenAndServe call: the net.Listen call
it made, and the serving mode it entered (none when binding failed and
the function returned early). -/
structure LsTrace where
  listen : ListenCall
  mode : Option ServeMode
deriving DecidableEq, Repr

/-- listenAndServe: choose the network from the address (the unix:
prefix selects a unix-domain socket at the trimmed path, anything else a
tcp socket at the address itself), return the bind error if binding
fails, otherwise serve with TLS when cert or key is non-empty and plain
otherwise, returning whatever the serve call eventually returns. -/
def listenAndServe (address cert key : String) (w : World) : LsTrace × GoError :=
  let call : ListenCall :=
    if goHasPfx address "unix:" then
      ⟨"unix", goTrimPfx address "unix:"⟩
    else
      ⟨"tcp", address⟩
  if w.bindErr = GoError.nil then
    if cert ≠ "" ∨ key ≠ "" then
      (⟨call, some ServeMode.tls⟩, w.serveResult)
    else
      (⟨call, some ServeMode.plain⟩, w.serveResult)
  else
    (⟨call, none⟩, w.bindErr)

/-- time.Second in nanoseconds, the unit of time.Duration. -/
def timeSecond : Nat := 1000000000

/-- A Go context restricted to what the watcher uses: its deadline in
nanoseconds since the start of the lifetime. -/
structure Ctx where
  deadlineNs : Option Nat
deriving DecidableEq, Repr

/-- context.WithTimeout(context.Background(), d) taken at instant now:
a context whose deadline is now + d. -/
def contextWithTimeout (nowNs durationNs : Nat) : Ctx :=
  ⟨some (nowNs + durationNs)⟩

/-- The observable events of the interrupt-watcher goroutine. -/
inductive WEvent where
  | interruptReceived
  | shutdownInvoked (ctx : Ctx)
  | outcomeSend (e : GoError)
deriving DecidableEq, Repr

/-- The body of the goroutine launched by shutdownOnInterruptSignal: it
performs a single receive on the buffered (capacity one) signal channel,
so it runs at most once per lifetime; if no interrupt is ever delivered
it stays blocked and produces no event.  On the first interrupt it
builds a context with the given timeout and calls serverShutdown; only
when that call returns a non-nil error does it send that error on the
outcome channel. -/
def shutdownOnInterruptSignal (timeoutNs nowNs : Nat) (w : World) : List WEvent :=
  if w.interrupts ≥ 1 then
    let ctx := contextWithTimeout nowNs timeoutNs
    [WEvent.interruptReceived, WEvent.shutdownInvoked ctx] ++
      (if w.shutdownResult = GoError.nil then []
       else [WEvent.outcomeSend w.shutdownResult])
  else []

/-- The values the serve-loop goroutine attempts to send on the outcome
channel: the goroutine launched by startServer runs listenAndServe once
and sends its result. -/
def serveLoopSends (address cert key : String) (w : World) : List GoError :=
  [(listenAndServe address cert key w).2]

/-- The outcome-channel sends occurring in a watcher event trace. -/
def sendsOf (evs : List WEvent) : List GoError :=
  evs.filterMap fun ev =>
    match ev with
    | WEvent.outcomeSend e => some e
    | _ => none

/-- The values the interrupt watcher attempts to send on the outcome
channel. -/
def watcherSends (w : World) : List GoError :=
  sendsOf (shutdownOnInterruptSignal (2 * timeSecond) 0 w)

/-- All values attempted on the outcome channel in one lifetime. -/
def outcomeSends (address cert key : String) (w : World) : List GoError :=
  serveLoopSends address cert key w ++ watcherSends w

/-- Capacity of the outcome channel: make(chan error) in startServer is
unbuffered. -/
def outcomeChanCapacity : Nat := 0

/-- Receives performed on the outcome channel: waitForServerToClose does
exactly one receive and Start returns; nothing reads the channel after
that. -/
def outcomeReads : Nat := 1

/-- On a channel of capacity c on which the consumers perform r receives
in total, at most r + c attempted sends ever complete; every further
sender stays blocked on its send forever. -/
def blockedSenders (address cert key : String) (w : World) : Nat :=
  (outcomeSends address cert key w).length - (outcomeReads + outcomeChanCapacity)

/-- The single value the receive in waitForServerToClose obtains: one of
the attempted sends.  The serve-loop goroutine always attempts exactly
one send; when the watcher also sends, which producer wins the race is
nondeterministic, resolved here by the serveWins flag. -/
def receivedOutcome (serveVals watcherVals : List GoError) (serveWins : Bool) : GoError :=
  match serveVals, watcherVals with
  | s :: _, [] => s
  | [], e :: _ => e
  | s :: _, e :: _ => if serveWins then s else e
  | [], [] => GoError.nil

/-- The grace period Start hands to shutdownOnInterruptSignal:
2 * time.Second. -/
def startGracePeriodNs : Nat := 2 * timeSecond

/-- The error value Start returns: it starts the server, registers the
interrupt watcher with a two-second grace period, and blocks in
waitForServerToClose on the outcome channel. -/
def startModel (address cert key : String) (w : World) (serveWins : Bool) : GoError :=
  waitForServerToClose
    (receivedOutcome (serveLoopSends address cert key w) (watcherSends w) serveWins)

/-- The watcher trace as produced within Start, where the timeout
argument is the fixed two-second grace period. -/
def startWatcherTrace (nowNs : Nat) (w : World) : List WEvent :=
  shutdownOnInterruptSignal startGracePeriodNs nowNs w

/-- The net.Listen call is the same in every branch of listenAndServe. -/
theorem listenAndServe_listen_eq (address cert key : String) (w : World) :
    (listenAndServe address cert key w).1.listen =
      (if goHasPfx address "unix:" then
        (⟨"unix", goTrimPfx address "unix:"⟩ : ListenCall)
      else
        ⟨"tcp", address⟩) := by
  unfold listenAndServe
  by_cases hb : w.bindErr = GoError.nil
  · by_cases hck : cert ≠ "" ∨ key ≠ "" <;> simp [hb, hck]
  · simp [hb]

/-- C5: the listener factory binds a unix-domain listener at the address
with the five-character prefix stripped whenever the address starts with
unix:, and a tcp listener at the exact address otherwise. -/
theorem c5_listener_factory (address cert key : String) (w : World) :
    (listenAndServe address cert key w).1.listen =
      (if goHasPfx address "unix:" then
        (⟨"unix", strDrop address 5⟩ : ListenCall)
      else
        ⟨"tcp", address⟩) := by
  rw [listenAndServe_listen_eq]
  by_cases hp : goHasPfx address "unix:"
  · simp only [if_pos hp]
    unfold goTrimPfx
    rw [if_pos hp]
    have h5 : "unix:".data.length = 5 := rfl
    rw [h5]
  · simp [hp]

/-- C4: after a successful bind, the serve loop serves plain exactly
when both cert and key are empty, and serves with TLS exactly when at
least one of them is non-empty. -/
theorem c4_mode_selection (address cert key : String) (w : World)
    (hb : w.bindErr = GoError.nil) :
    ((listenAndServe address cert key w).1.mode = some ServeMode.plain ↔
      (cert = "" ∧ key = "")) ∧
    ((listenAndServe address cert key w).1.mode = some ServeMode.tls ↔
      (cert ≠ "" ∨ key ≠ "")) := by
  unfold listenAndServe
  by_cases hck : cert ≠ "" ∨ key ≠ ""
  · constructor
    · simp only [hb, if_pos rfl, if_pos hck]
      constructor
      · intro hmode
        exact absurd hmode (by simp)
      · intro hand
        rcases hck with h1 | h2
        · exact absurd hand.1 h1
        · exact absurd hand.2 h2
    · simp [hb, hck]
  · push_neg at hck
    constructor
    · simp [hb, hck.1, hck.2]
    · simp [hb, hck.1, hck.2]

/-- Witness for C4 at a concrete endpoint with a certificate pair. -/
theorem c4_mode_selection_witness :
    ((listenAndServe "127.0.0.1:3000" "cert.pem" "key.pem"
        ⟨GoError.nil, GoError.serverClosedSentinel, 0, GoError.nil⟩).1.mode =
        some ServeMode.plain ↔ ("cert.pem" = "" ∧ "key.pem" = "")) ∧
    ((listenAndServe "127.0.0.1:3000" "cert.pem" "key.pem"
        ⟨GoError.nil, GoError.serverClosedSentinel, 0, GoError.nil⟩).1.mode =
        some ServeMode.tls ↔ ("cert.pem" ≠ "" ∨ "key.pem" ≠ "")) :=
  c4_mode_selection "127.0.0.1:3000" "cert.pem" "key.pem"
    ⟨GoError.nil, GoError.serverClosedSentinel, 0, GoError.nil⟩ rfl

/-- C2 counterexample: with a concrete occupied tcp address the bind
error IS delivered through the outcome channel (the whole send list is
exactly that bind error, produced by the background serve goroutine),
refuting the claim that bind errors are never delivered through the
outcome channel. -/
theorem c2_bind_error_on_channel_counterexample :
    outcomeSends "127.0.0.1:80" "" ""
        ⟨GoError.fresh 7 "listen tcp 127.0.0.1:80: bind: address already in use",
          GoError.nil, 0, GoError.nil⟩ =
      [GoError.fresh 7 "listen tcp 127.0.0.1:80: bind: address already in use"] ∧
    GoError.fresh 7 "listen tcp 127.0.0.1:80: bind: address already in use" ∈
      outcomeSends "127.0.0.1:80" "" ""
        ⟨GoError.fresh 7 "listen tcp 127.0.0.1:80: bind: address already in use",
          GoError.nil, 0, GoError.nil⟩ := by
  constructor
  · rfl
  · simp [outcomeSends, serveLoopSends, listenAndServe, watcherSends,
      shutdownOnInterruptSignal]

/-- C2 amended: when binding fails the serve goroutine never reaches a
serving mode, the bind error is delivered through the outcome channel as
the only send of the lifetime (no interrupt arriving), and Start returns
the bind error verbatim from its blocking wait. -/
theorem c2_bind_error_via_channel (address cert key : String) (w : World)
    (serveWins : Bool) (hb : w.bindErr ≠ GoError.nil)
    (hbs : w.bindErr ≠ GoError.serverClosedSentinel) (hi : w.interrupts = 0) :
    (listenAndServe address cert key w).1.mode = none ∧
    outcomeSends address cert key w = [w.bindErr] ∧
    startModel address cert key w serveWins = w.bindErr := by
  have hw : watcherSends w = [] := by
    unfold watcherSends shutdownOnInterruptSignal
    simp [hi, sendsOf]
  have hls : listenAndServe address cert key w =
      (⟨(listenAndServe address cert key w).1.listen, none⟩, w.bindErr) := by
    rw [listenAndServe_listen_eq]
    unfold listenAndServe
    simp [hb]
  refine ⟨?_, ?_, ?_⟩
  · rw [hls]
  · unfold outcomeSends serveLoopSends
    rw [hls, hw]
    simp
  · unfold startModel serveLoopSends receivedOutcome
    rw [hls, hw]
    simp [waitForServerToClose, hbs]

/-- Witness for the amended C2 at a concrete occupied address. -/
theorem c2_bind_error_via_channel_witness :
    (listenAndServe "127.0.0.1:80" "" ""
        ⟨GoError.fresh 8 "bind: address already in use",
          GoError.nil, 0, GoError.nil⟩).1.mode = none ∧
    outcomeSends "127.0.0.1:80" "" ""
        ⟨GoError.fresh 8 "bind: address already in use",
          GoError.nil, 0, GoError.nil⟩ =
      [GoError.fresh 8 "bind: address already in use"] ∧
    startModel "127.0.0.1:80" "" ""
        ⟨GoError.fresh 8 "bind: address already in use",
          GoError.nil, 0, GoError.nil⟩ true =
      GoError.fresh 8 "bind: address already in use" :=
  c2_bind_error_via_channel "127.0.0.1:80" "" ""
    ⟨GoError.fresh 8 "bind: address already in use", GoError.nil, 0, GoError.nil⟩
    true (by decide) (by decide) rfl

/-- C3 at the failing lifetime: an interrupt arrives, the shutdown call
fails with a deadline error (so the watcher sends it), and the serve
loop returns the closed sentinel (so the serve goroutine sends too).
Two sends are attempted, but the unbuffered channel (capacity zero) plus
the single receive of the blocking wait let only one complete: exactly
one producer remains blocked forever on its send, contradicting the
claim that no producer stays blocked. -/
theorem c3_losing_producer_blocks_forever :
    (outcomeSends "127.0.0.1:5050" "" ""
        ⟨GoError.nil, GoError.serverClosedSentinel, 1,
          GoError.fresh 9 "context deadline exceeded"⟩).length = 2 ∧
    outcomeReads + outcomeChanCapacity = 1 ∧
    blockedSenders "127.0.0.1:5050" "" ""
        ⟨GoError.nil, GoError.serverClosedSentinel, 1,
          GoError.fresh 9 "context deadline exceeded"⟩ = 1 := by
  refine ⟨?_, rfl, ?_⟩ <;> rfl

/-- C6: on the watcher path a value is written to the outcome channel
exactly when the shutdown call was invoked with the derived context and
returned a non-nil error, and the written value is that error; a
successful shutdown writes nothing on this path. -/
theorem c6_watcher_writes_iff_shutdown_fails (timeoutNs nowNs : Nat) (w : World) :
    sendsOf (shutdownOnInterruptSignal timeoutNs nowNs w) =
      (if WEvent.shutdownInvoked (contextWithTimeout nowNs timeoutNs) ∈
            shutdownOnInterruptSignal timeoutNs nowNs w ∧
          w.shutdownResult ≠ GoError.nil
        then [w.shutdownResult] else []) := by
  unfold shutdownOnInterruptSignal
  by_cases hi : w.interrupts ≥ 1
  · by_cases hsr : w.shutdownResult = GoError.nil <;>
      simp [hi, hsr, sendsOf]
  · simp [hi, sendsOf]

/-- Helper for C7: every shutdown invocation in a watcher trace is
preceded by an interrupt receipt. -/
theorem watcher_trace_interrupt_first (timeoutNs nowNs : Nat) (wAny : World)
    (pre suf : List WEvent) (ctx : Ctx)
    (h : shutdownOnInterruptSignal timeoutNs nowNs wAny =
      pre ++ WEvent.shutdownInvoked ctx :: suf) :
    WEvent.interruptReceived ∈ pre := by
  unfold shutdownOnInterruptSignal at h
  by_cases hint : wAny.interrupts ≥ 1
  · rw [if_pos hint] at h
    simp only [List.cons_append, List.nil_append] at h
    cases pre with
    | nil => simp at h
    | cons x rest =>
        rw [List.cons_append] at h
        have hx : WEvent.interruptReceived = x := by
          injection h with h1 h2
        rw [← hx]
        exact List.mem_cons_self _ _
  · rw [if_neg hint] at h
    simp at h

/-- C7: the shutdown call is only ever invoked after an interrupt
receipt (in every trace it is preceded by one); with no interrupt the
watcher produces no event at all, so a serve-loop failure alone never
triggers a shutdown attempt, and the overall wait returns the serve
error verbatim. -/
theorem c7_no_shutdown_without_interrupt (timeoutNs nowNs : Nat) (w wAny : World)
    (address cert key : String) (serveWins : Bool)
    (hi : w.interrupts = 0) (hb : w.bindErr = GoError.nil)
    (hs : w.serveResult ≠ GoError.serverClosedSentinel) :
    (∀ pre suf ctx,
      shutdownOnInterruptSignal timeoutNs nowNs wAny =
          pre ++ WEvent.shutdownInvoked ctx :: suf →
      WEvent.interruptReceived ∈ pre) ∧
    shutdownOnInterruptSignal timeoutNs nowNs w = [] ∧
    startModel address cert key w serveWins = w.serveResult := by
  refine ⟨?_, ?_, ?_⟩
  · intro pre suf ctx h
    exact watcher_trace_interrupt_first timeoutNs nowNs wAny pre suf ctx h
  · unfold shutdownOnInterruptSignal
    simp [hi]
  · have hw2 : watcherSends w = [] := by
      unfold watcherSends shutdownOnInterruptSignal
      simp [hi, sendsOf]
    have hsv : (listenAndServe address cert key w).2 = w.serveResult := by
      unfold listenAndServe
      by_cases hck : cert ≠ "" ∨ key ≠ "" <;> simp [hb, hck]
    unfold startModel serveLoopSends
    rw [hw2, hsv]
    simp [receivedOutcome, waitForServerToClose, hs]

/-- Witness for C7 at a concrete lifetime with an accept fault and no
interrupt. -/
theorem c7_no_shutdown_without_interrupt_witness :
    (∀ pre suf ctx,
      shutdownOnInterruptSignal 5 0
          ⟨GoError.nil, GoError.nil, 1, GoError.nil⟩ =
          pre ++ WEvent.shutdownInvoked ctx :: suf →
      WEvent.interruptReceived ∈ pre) ∧
    shutdownOnInterruptSignal 5 0
        ⟨GoError.nil, GoError.fresh 3 "accept tcp: io fault", 0, GoError.nil⟩ = [] ∧
    startModel "127.0.0.1:6060" "" ""
        ⟨GoError.nil, GoError.fresh 3 "accept tcp: io fault", 0, GoError.nil⟩ true =
      (World.mk GoError.nil (GoError.fresh 3 "accept tcp: io fault") 0
        GoError.nil).serveResult :=
  c7_no_shutdown_without_interrupt 5 0
    ⟨GoError.nil, GoError.fresh 3 "accept tcp: io fault", 0, GoError.nil⟩
    ⟨GoError.nil, GoError.nil, 1, GoError.nil⟩
    "127.0.0.1:6060" "" "" true rfl rfl (by decide)

/-- C8: within Start the grace period handed to the watcher is exactly
2 * time.Second, and any shutdown invocation carries a context whose
deadline is that duration after the interrupt instant. -/
theorem c8_two_second_grace_period (nowNs : Nat) (w : World) (ctx : Ctx)
    (h : WEvent.shutdownInvoked ctx ∈ startWatcherTrace nowNs w) :
    startGracePeriodNs = 2 * timeSecond ∧
    ctx.deadlineNs = some (nowNs + 2 * timeSecond) := by
  refine ⟨rfl, ?_⟩
  unfold startWatcherTrace shutdownOnInterruptSignal at h
  by_cases hi : w.interrupts ≥ 1
  · rw [if_pos hi] at h
    by_cases hsr : w.shutdownResult = GoError.nil
    · simp [hsr] at h
      rw [h]
      rfl
    · simp [hsr] at h
      rw [h]
      rfl
  · rw [if_neg hi] at h
    simp at h

/-- Witness for C8 at a concrete interrupted lifetime. -/
theorem c8_two_second_grace_period_witness :
    startGracePeriodNs = 2 * timeSecond ∧
    (Ctx.mk (some (0 + 2 * timeSecond))).deadlineNs = some (0 + 2 * timeSecond) :=
  c8_two_second_grace_period 0
    ⟨GoError.nil, GoError.serverClosedSentinel, 1, GoError.nil⟩
    ⟨some (0 + 2 * timeSecond)⟩ (by decide)

/-- Recognizer for interrupt-receipt events. -/
def isInterruptEv : WEvent → Bool
  | WEvent.interruptReceived => true
  | _ => false

/-- Recognizer for shutdown-invocation events. -/
def isShutdownEv : WEvent → Bool
  | WEvent.shutdownInvoked _ => true
  | _ => false

/-- Recognizer for outcome-channel send events. -/
def isSendEv : WEvent → Bool
  | WEvent.outcomeSend _ => true
  | _ => false

/-- C9: the watcher is one-shot.  However many interrupts the OS
delivers in a lifetime, its trace contains at most one interrupt
receipt, at most one shutdown invocation, and at most one channel
write. -/
theorem c9_watcher_one_shot (timeoutNs nowNs : Nat) (w : World) :
    (shutdownOnInterruptSignal timeoutNs nowNs w).countP isInterruptEv ≤ 1 ∧
    (shutdownOnInterruptSignal timeoutNs nowNs w).countP isShutdownEv ≤ 1 ∧
    (shutdownOnInterruptSignal timeoutNs nowNs w).countP isSendEv ≤ 1 := by
  unfold shutdownOnInterruptSignal
  by_cases hi : w.interrupts ≥ 1
  · by_cases hsr : w.shutdownResult = GoError.nil <;>
      simp [hi, hsr, isInterruptEv, isShutdownEv, isSendEv, List.countP_cons]
  · simp [hi]

end Server
